import Mathlib

/-!
Verification development for the banana-slides presentation-generation backend.

This file gives a shallow embedding of the AI generation orchestrator
(`backend/services/ai_service.py`) and of the chat-completion-style image
provider (`backend/services/ai_providers/image/openai_provider.py`), and proves
properties of the embedded operations: the JSON retry loop, response cleaning,
markdown-image stripping, outline flattening, reference-image resolution, the
reasoning-budget selection, and the image-extraction precedence.

External collaborators (the PIL image library, the network, the filesystem, the
provider API itself) are modelled as abstract environment records of pure
functions; Python's `json.loads` and the concrete string/regex operations used
by the source are modelled executably below.
-/

set_option autoImplicit false

/-- An in-memory image (a `PIL.Image.Image` value); the payload is an opaque
identity so that distinct images can be told apart. -/
structure PILImage where
  id : Nat
deriving DecidableEq

/-- Python exception values as raised/propagated by the embedded code.
`wrapped ctx e` models `raise Exception(f"<ctx>: ...") from e`. -/
inductive PyErr where
  | jsonDecodeError (text : String)
  | valueError (msg : String)
  | fileNotFoundError (msg : String)
  | imageDecodeError
  | indexError
  | wrapped (ctx : String) (inner : PyErr)
deriving DecidableEq

/-- JSON values as produced by Python's `json.loads` (numbers restricted to
integers in this model). -/
inductive Json where
  | null
  | bool (b : Bool)
  | num (n : Int)
  | str (s : String)
  | arr (elems : List Json)
  | obj (fields : List (String × Json))

/-- Python whitespace, as stripped by `str.strip()` (ASCII fragment). -/
def isPyWs (c : Char) : Bool :=
  c = ' ' || c = '\t' || c = '\n' || c = '\r' || c = '\x0b' || c = '\x0c'

/-- Drop characters satisfying `p` from both ends of a character list. -/
def stripListWith (p : Char → Bool) (cs : List Char) : List Char :=
  ((cs.dropWhile p).reverse.dropWhile p).reverse

/-- Python `str.strip()`: remove leading and trailing whitespace. -/
def pyStrip (s : String) : String :=
  String.mk (stripListWith isPyWs s.data)

/-- Python `str.strip(chars)`: remove, from both ends, every character that is
a member of the character SET `chars` (not the literal substring `chars`). -/
def pyStripChars (s : String) (chars : String) : String :=
  String.mk (stripListWith (fun c => chars.data.contains c) s.data)

/-- Python `str.startswith(p)`. -/
def pyStartsWith (s p : String) : Bool :=
  p.data.isPrefixOf s.data

/-- Python `str.removeprefix(p)`: drop `p` from the front when present. -/
def removePrefixIfPresent (s p : String) : String :=
  if pyStartsWith s p then String.mk (s.data.drop p.data.length) else s

/-- Python `str.removesuffix(p)`: drop `p` from the back when present. -/
def removeSuffixIfPresent (s p : String) : String :=
  if p.data.isSuffixOf s.data then
    String.mk (s.data.take (s.data.length - p.data.length))
  else s

/-- JSON whitespace accepted between tokens by `json.loads`. -/
def isJsonWs (c : Char) : Bool :=
  c = ' ' || c = '\t' || c = '\n' || c = '\r'

def skipJsonWs (cs : List Char) : List Char :=
  cs.dropWhile isJsonWs

/-- JSON string escapes handled by this model of `json.loads` (`\uXXXX`
escapes are outside the modelled fragment). -/
def jsonEscChar (e : Char) : Option Char :=
  if e = 'n' then some '\n'
  else if e = 't' then some '\t'
  else if e = 'r' then some '\r'
  else if e = 'b' then some '\x08'
  else if e = 'f' then some '\x0c'
  else if e = '"' ∨ e = '\\' ∨ e = '/' then some e
  else none

/-- Parse the body of a JSON string (after the opening quote), returning the
decoded string and the remaining input. -/
def parseJsonStringBody : Nat → List Char → Option (String × List Char)
  | 0, _ => none
  | fuel + 1, cs =>
    match cs with
    | '"' :: rest => some ("", rest)
    | '\\' :: e :: rest =>
      match jsonEscChar e with
      | some c =>
        match parseJsonStringBody fuel rest with
        | some (s, r) => some (String.mk (c :: s.data), r)
        | none => none
      | none => none
    | c :: rest =>
      if c.toNat < 32 then none
      else
        match parseJsonStringBody fuel rest with
        | some (s, r) => some (String.mk (c :: s.data), r)
        | none => none
    | [] => none

def digitsToNat (ds : List Char) : Nat :=
  ds.foldl (fun acc c => 10 * acc + (c.toNat - 48)) 0

/-- Parse a JSON number. Floats (`.`/`e`/`E`) are outside the modelled
fragment and are rejected. -/
def parseJsonNumber (cs : List Char) : Option (Json × List Char) :=
  let signSplit : Bool × List Char :=
    match cs with
    | '-' :: rest => (true, rest)
    | _ => (false, cs)
  let ds := signSplit.2.takeWhile Char.isDigit
  if ds.isEmpty then none
  else
    let rest := signSplit.2.drop ds.length
    match rest with
    | '.' :: _ => none
    | 'e' :: _ => none
    | 'E' :: _ => none
    | _ =>
      let n : Int := Int.ofNat (digitsToNat ds)
      some (Json.num (if signSplit.1 then -n else n), rest)

mutual

/-- Recursive-descent JSON value parser (fuelled), modelling `json.loads`. -/
def parseJsonValue : Nat → List Char → Option (Json × List Char)
  | 0, _ => none
  | fuel + 1, cs =>
    match skipJsonWs cs with
    | 'n' :: 'u' :: 'l' :: 'l' :: rest => some (Json.null, rest)
    | 't' :: 'r' :: 'u' :: 'e' :: rest => some (Json.bool true, rest)
    | 'f' :: 'a' :: 'l' :: 's' :: 'e' :: rest => some (Json.bool false, rest)
    | '"' :: rest =>
      match parseJsonStringBody (fuel + 1) rest with
      | some (s, r) => some (Json.str s, r)
      | none => none
    | '[' :: rest =>
      match skipJsonWs rest with
      | ']' :: r => some (Json.arr [], r)
      | cs2 =>
        match parseJsonArrayItems fuel cs2 with
        | some (items, r) => some (Json.arr items, r)
        | none => none
    | '{' :: rest =>
      match skipJsonWs rest with
      | '}' :: r => some (Json.obj [], r)
      | cs2 =>
        match parseJsonObjectItems fuel cs2 with
        | some (fields, r) => some (Json.obj fields, r)
        | none => none
    | cs2 => parseJsonNumber cs2

/-- Parse the comma-separated items of a non-empty JSON array. -/
def parseJsonArrayItems : Nat → List Char → Option (List Json × List Char)
  | 0, _ => none
  | fuel + 1, cs =>
    match parseJsonValue fuel cs with
    | some (v, rest) =>
      match skipJsonWs rest with
      | ',' :: rest2 =>
        match parseJsonArrayItems fuel rest2 with
        | some (items, r) => some (v :: items, r)
        | none => none
      | ']' :: rest2 => some ([v], rest2)
      | _ => none
    | none => none

/-- Parse the comma-separated members of a non-empty JSON object. -/
def parseJsonObjectItems : Nat → List Char → Option (List (String × Json) × List Char)
  | 0, _ => none
  | fuel + 1, cs =>
    match skipJsonWs cs with
    | '"' :: rest =>
      match parseJsonStringBody (fuel + 1) rest with
      | some (key, rest2) =>
        match skipJsonWs rest2 with
        | ':' :: rest3 =>
          match parseJsonValue fuel rest3 with
          | some (v, rest4) =>
            match skipJsonWs rest4 with
            | ',' :: rest5 =>
              match parseJsonObjectItems fuel rest5 with
              | some (fields, r) => some ((key, v) :: fields, r)
              | none => none
            | '}' :: rest5 => some ([(key, v)], rest5)
            | _ => none
          | none => none
        | _ => none
      | none => none
    | _ => none

end

/-- Model of Python's `json.loads`: parse a complete JSON document, requiring
the whole input (up to trailing whitespace) to be consumed. The modelled
fragment has integer numbers, no `\uXXXX` escapes and no `NaN`/`Infinity`. -/
def jsonLoads (s : String) : Option Json :=
  match parseJsonValue (2 * s.length + 2) s.data with
  | some (v, rest) => if (skipJsonWs rest).isEmpty then some v else none
  | none => none

/-- The orchestrator's configuration state, as stored by `AIService.__init__`
(`backend/services/ai_service.py`): model names plus the two independent
reasoning toggles with their budgets. -/
structure AIService where
  text_model : String
  image_model : String
  enable_text_reasoning : Bool
  text_thinking_budget : Nat
  enable_image_reasoning : Bool
  image_thinking_budget : Nat
deriving DecidableEq

/-- `AIService._get_text_thinking_budget`: the configured budget when text
reasoning is enabled, 0 otherwise, read from the state at call time. -/
def get_text_thinking_budget (svc : AIService) : Nat :=
  if svc.enable_text_reasoning then svc.text_thinking_budget else 0

/-- `AIService._get_image_thinking_budget`: the configured budget when image
reasoning is enabled, 0 otherwise, read from the state at call time. -/
def get_image_thinking_budget (svc : AIService) : Nat :=
  if svc.enable_image_reasoning then svc.image_thinking_budget else 0

/-- Response cleaning in `AIService.generate_json`:
`response_text.strip().strip("```json").strip("```").strip()`, with Python's
character-SET semantics of `str.strip(chars)`. -/
def cleanJsonResponse (response_text : String) : String :=
  pyStrip (pyStripChars (pyStripChars (pyStrip response_text) "```json") "```")

/-- Response cleaning in `AIService.generate_json_with_image`:
`response_text.strip().removeprefix("```json").removeprefix("```")
.removesuffix("```").strip()`. -/
def cleanJsonResponseWithImage (response_text : String) : String :=
  pyStrip (removeSuffixIfPresent
    (removePrefixIfPresent (removePrefixIfPresent (pyStrip response_text) "```json") "```")
    "```")

/-- One attempt of `AIService.generate_json`: call the text provider with the
prompt and the call-time thinking budget, clean the response, parse it as
JSON; a parse failure raises `json.JSONDecodeError`. The provider is an
abstract function of (call index, prompt, thinking budget). -/
def generateJsonAttempt (svc : AIService) (gen : Nat → String → Nat → String)
    (prompt : String) (callIdx : Nat) : Except PyErr Json :=
  let actual_budget := get_text_thinking_budget svc
  let response_text := gen callIdx prompt actual_budget
  let cleaned_text := cleanJsonResponse response_text
  match jsonLoads cleaned_text with
  | some v => Except.ok v
  | none => Except.error (PyErr.jsonDecodeError cleaned_text)

/-- `AIService.generate_json` under its `tenacity` decorator
(`stop_after_attempt(3)`, retry on `JSONDecodeError`/`ValueError`,
`reraise=True`): up to three attempts with the same prompt; the last error is
re-raised. The second component records the `(prompt, thinking_budget)`
arguments of each provider call made. -/
def generate_json (svc : AIService) (gen : Nat → String → Nat → String)
    (prompt : String) : Except PyErr Json × List (String × Nat) :=
  match generateJsonAttempt svc gen prompt 0 with
  | Except.ok v => (Except.ok v, List.replicate 1 (prompt, get_text_thinking_budget svc))
  | Except.error _ =>
    match generateJsonAttempt svc gen prompt 1 with
    | Except.ok v => (Except.ok v, List.replicate 2 (prompt, get_text_thinking_budget svc))
    | Except.error _ =>
      (generateJsonAttempt svc gen prompt 2,
        List.replicate 3 (prompt, get_text_thinking_budget svc))

/-- A provider stub whose response depends only on the call index, as used by
the retry-bound properties. -/
def stubResponses (resp : Nat → String) : Nat → String → Nat → String :=
  fun i _ _ => resp i

/-- The dynamically probed optional methods of the active text provider, as
checked by `hasattr(self.text_provider, ...)` in
`AIService.generate_json_with_image`; `none` models an absent attribute. Each
present method maps (call index, prompt, image path(s), thinking budget) to
the response text. -/
structure TextProviderWithImage where
  generate_with_image : Option (Nat → String → String → Nat → String)
  generate_text_with_images : Option (Nat → String → List String → Nat → String)

/-- Parse a cleaned response as JSON, raising `json.JSONDecodeError` on
failure. -/
def parseCleaned (cleaned : String) : Except PyErr Json :=
  match jsonLoads cleaned with
  | some v => Except.ok v
  | none => Except.error (PyErr.jsonDecodeError cleaned)

/-- One attempt of `AIService.generate_json_with_image`: probe
`generate_with_image`, then `generate_text_with_images`; if neither is
implemented raise `ValueError("text_provider 不支持图片输入")`; otherwise call
the provider, clean and parse. -/
def generateJsonWithImageAttempt (svc : AIService) (tp : TextProviderWithImage)
    (prompt image_path : String) (callIdx : Nat) : Except PyErr Json :=
  let actual_budget := get_text_thinking_budget svc
  match tp.generate_with_image with
  | some f => parseCleaned (cleanJsonResponseWithImage (f callIdx prompt image_path actual_budget))
  | none =>
    match tp.generate_text_with_images with
    | some f =>
      parseCleaned (cleanJsonResponseWithImage (f callIdx prompt [image_path] actual_budget))
    | none => Except.error (PyErr.valueError "text_provider 不支持图片输入")

/-- `AIService.generate_json_with_image` under its `tenacity` decorator
(`stop_after_attempt(3)`, retry on `JSONDecodeError`/`ValueError`,
`reraise=True`). Both the parse error and the unsupported-capability
`ValueError` are instances of the retried exception types, so every failing
attempt is retried until the attempt budget is spent. The second component
counts the attempts performed (each attempt performs the capability probe). -/
def generate_json_with_image (svc : AIService) (tp : TextProviderWithImage)
    (prompt image_path : String) : Except PyErr Json × Nat :=
  match generateJsonWithImageAttempt svc tp prompt image_path 0 with
  | Except.ok v => (Except.ok v, 1)
  | Except.error _ =>
    match generateJsonWithImageAttempt svc tp prompt image_path 1 with
    | Except.ok v => (Except.ok v, 2)
    | Except.error _ => (generateJsonWithImageAttempt svc tp prompt image_path 2, 3)

/-- Characters matched by `\s` in Python `re` patterns (ASCII fragment). -/
def isPyRegexSpace (c : Char) : Bool :=
  c = ' ' || c = '\t' || c = '\n' || c = '\r' || c = '\x0b' || c = '\x0c'

/-- Matching of `(.*?)\]\([^\)]+\)` against the characters following an
initial `![`, with the lazy/greedy backtracking of Python `re`: the alt text
(which may not contain a newline) grows one character at a time until a `](`
is found after which at least one non-`)` character and a closing `)` follow.
On success, returns the alt-text characters and the input remaining after the
closing parenthesis. -/
def imgAltScanGo : Nat → List Char → List Char → Option (List Char × List Char)
  | 0, _, _ => none
  | fuel + 1, alt, cs =>
    match cs with
    | ']' :: '(' :: rest =>
      let run := rest.takeWhile (fun c => c ≠ ')')
      if run ≠ [] ∧ (rest.drop run.length).head? = some ')' then
        some (alt, rest.drop (run.length + 1))
      else
        imgAltScanGo fuel (alt ++ [']']) ('(' :: rest)
    | c :: rest => if c = '\n' then none else imgAltScanGo fuel (alt ++ [c]) rest
    | [] => none

def imgAltScan (alt : List Char) (cs : List Char) : Option (List Char × List Char) :=
  imgAltScanGo (cs.length + 1) alt cs

/-- Left-to-right, non-overlapping substitution of
`re.sub(r'!\[(.*?)\]\([^\)]+\)', replace_image, text)` from
`AIService.remove_markdown_images`: each markdown image link is replaced by
its stripped alt text (by nothing when the stripped alt text is empty). The
fuel argument exceeds the input length, so it is never exhausted. -/
def subImagesGo : Nat → List Char → List Char
  | 0, cs => cs
  | fuel + 1, cs =>
    match cs with
    | '!' :: '[' :: rest =>
      match imgAltScan [] rest with
      | some (alt, remainder) =>
        (pyStrip (String.mk alt)).data ++ subImagesGo fuel remainder
      | none => '!' :: subImagesGo fuel ('[' :: rest)
    | c :: rest => c :: subImagesGo fuel rest
    | [] => []

/-- Whether `blankAt`'s candidate at backtracking position `l` matches; see
`blankMatchLen`. `blankInner` matches `\s*\n` at the start of its input with
greedy backtracking, returning the position of the matched `\n`. -/
def blankTry2 (rest2 : List Char) : Nat → Option Nat
  | 0 => if rest2.head? = some '\n' then some 0 else none
  | l + 1 => if rest2.get? (l + 1) = some '\n' then some (l + 1) else blankTry2 rest2 l

def blankInner (rest2 : List Char) : Option Nat :=
  blankTry2 rest2 (rest2.takeWhile isPyRegexSpace).length

def blankAt (rest : List Char) (l : Nat) : Option Nat :=
  if rest.get? l = some '\n' then
    match blankInner (rest.drop (l + 1)) with
    | some len2 => some (l + 1 + len2 + 1)
    | none => none
  else none

def blankTry1 (rest : List Char) : Nat → Option Nat
  | 0 => blankAt rest 0
  | l + 1 =>
    match blankAt rest (l + 1) with
    | some n => some n
    | none => blankTry1 rest l

/-- Length of the match of `\n\s*\n\s*\n` at the start of the input, with the
greedy backtracking of Python `re` (each `\s*` takes as much as possible
first), or `none` when there is no match at this position. -/
def blankMatchLen (cs : List Char) : Option Nat :=
  match cs with
  | '\n' :: rest =>
    match blankTry1 rest (rest.takeWhile isPyRegexSpace).length with
    | some consumed => some (1 + consumed)
    | none => none
  | _ => none

/-- Left-to-right, non-overlapping substitution of
`re.sub(r'\n\s*\n\s*\n', '\n\n', text)` from
`AIService.remove_markdown_images`. -/
def collapseGo : Nat → List Char → List Char
  | 0, cs => cs
  | fuel + 1, cs =>
    match blankMatchLen cs with
    | some n => '\n' :: '\n' :: collapseGo fuel (cs.drop n)
    | none =>
      match cs with
      | [] => []
      | c :: rest => c :: collapseGo fuel rest

/-- `AIService.remove_markdown_images`: replace every markdown image link by
its alt text (dropping the link entirely when the alt text is empty), then
collapse excess blank lines; empty input is returned unchanged. -/
def remove_markdown_images (text : String) : String :=
  if text = "" then text
  else
    let cleaned_text := String.mk (subImagesGo (text.length + 1) text.data)
    String.mk (collapseGo (cleaned_text.length + 1) cleaned_text.data)

/-- A page dictionary within an outline: its title and its (optional) `part`
key; `page.copy()` followed by setting `"part"` is modelled by a structure
update of the `part` field. -/
structure Page where
  title : String
  part : Option String
deriving DecidableEq

/-- An outline item, which is either a part (an item carrying both a `"part"`
name and a `"pages"` list) or a direct page (any other item). -/
inductive OutlineItem where
  | partItem (name : String) (pages : List Page)
  | directPage (page : Page)
deriving DecidableEq

/-- `AIService.flatten_outline`: expand each part into its pages (each page
copied with its `part` field set to the owning part's name); keep direct pages
as they are, preserving order throughout. -/
def flatten_outline : List OutlineItem → List Page
  | [] => []
  | OutlineItem.partItem name ps :: rest =>
    ps.map (fun page => { page with part := some name }) ++ flatten_outline rest
  | OutlineItem.directPage page :: rest => page :: flatten_outline rest

/-- Number of flattened pages an outline item contributes: the length of a
part's page list, or 1 for a direct page. -/
def outlineItemPageCount : OutlineItem → Nat
  | OutlineItem.partItem _ ps => ps.length
  | OutlineItem.directPage _ => 1

/-- The pages contributed by a single outline item, in order. -/
def expandOutlineItem : OutlineItem → List Page
  | OutlineItem.partItem name ps => ps.map (fun page => { page with part := some name })
  | OutlineItem.directPage page => [page]

/-- A reference-image entry of `additional_ref_images`: either an in-memory
PIL image or a string (path / URL / internal reference). -/
inductive RefEntry where
  | image (img : PILImage)
  | str (s : String)

/-- The external collaborators used by `AIService.generate_image`:
filesystem (`os.path.exists` / `PIL.Image.open`), network download
(`AIService.download_image_from_url`, which returns `None` on any failure),
the MinerU file-resolution collaborator, and the configured image provider.
`Image.open` is modelled as total on existing paths. -/
structure ImageGenEnv where
  pathExists : String → Bool
  /-- Python's `os.path.exists("")` is `False` (the empty path never names an
  existing file), so every modelled filesystem satisfies this. -/
  pathExists_empty : pathExists "" = false
  openImage : String → PILImage
  downloadImage : String → Option PILImage
  /-- Modelled from the spec: `AIService._convert_mineru_path_to_local` calls
  `utils.path_utils.find_mineru_file_with_prefix` (a module not included under
  `src/`), which maps a `/files/mineru/...` reference to a local filesystem
  path, with prefix matching, or reports "not found" (`None`). -/
  mineruResolve : String → Option String
  providerGenerateImage :
    String → Option (List PILImage) → String → String → Bool → Nat →
      Except PyErr (Option PILImage)

/-- Resolution of one `additional_ref_images` entry by the loop in
`AIService.generate_image`: PIL images pass through; a string is tried as an
existing local path, then as an `http(s)` URL to download, then as a
`/files/mineru/` reference to resolve locally; `none` models the
skip-with-warning branches. -/
def resolveAdditionalRef (env : ImageGenEnv) (ref_img : RefEntry) : Option PILImage :=
  match ref_img with
  | RefEntry.image img => some img
  | RefEntry.str s =>
    if env.pathExists s then some (env.openImage s)
    else if pyStartsWith s "http://" || pyStartsWith s "https://" then
      env.downloadImage s
    else if pyStartsWith s "/files/mineru/" then
      match env.mineruResolve s with
      | some local_path =>
        if env.pathExists local_path then some (env.openImage local_path) else none
      | none => none
    else none

/-- `raise Exception(error_detail) from e`: wrap any error escaping the
guarded block of `AIService.generate_image`. -/
def wrapPyErr {α : Type} (ctx : String) : Except PyErr α → Except PyErr α
  | Except.ok v => Except.ok v
  | Except.error e => Except.error (PyErr.wrapped ctx e)

/-- The tail of `AIService.generate_image`: assemble the reference-image list
(main reference first, then each resolvable additional reference in declared
order), and make the single provider call, passing `None` in place of an
empty list; the second component counts provider calls. -/
def generateImageProviderCall (env : ImageGenEnv) (svc : AIService) (prompt : String)
    (mainRef : Option PILImage) (additional_ref_images : List RefEntry)
    (aspect_ratio resolution : String) : Except PyErr (Option PILImage) × Nat :=
  let ref_images :=
    (match mainRef with | some m => [m] | none => []) ++
      additional_ref_images.filterMap (resolveAdditionalRef env)
  (wrapPyErr "Error generating image"
    (env.providerGenerateImage prompt
      (if ref_images.isEmpty then none else some ref_images)
      aspect_ratio resolution svc.enable_image_reasoning (get_image_thinking_budget svc)), 1)

/-- `AIService.generate_image`: the primary-reference guard is Python's
truthiness test `if ref_image_path:`, so both `None` and the empty string are
treated as "no primary reference" and proceed straight to the provider call.
When the guard is truthy but the path does not exist, raise a
`FileNotFoundError` (wrapped by the enclosing `except` block) without calling
the provider; otherwise open the primary reference, resolve the additional
references, and call the provider once. -/
def generate_image (env : ImageGenEnv) (svc : AIService) (prompt : String)
    (ref_image_path : Option String) (aspect_ratio resolution : String)
    (additional_ref_images : List RefEntry) : Except PyErr (Option PILImage) × Nat :=
  match ref_image_path with
  | some p =>
    if p = "" then
      generateImageProviderCall env svc prompt none
        additional_ref_images aspect_ratio resolution
    else if env.pathExists p then
      generateImageProviderCall env svc prompt (some (env.openImage p))
        additional_ref_images aspect_ratio resolution
    else
      (Except.error (PyErr.wrapped "Error generating image"
        (PyErr.fileNotFoundError ("Reference image not found: " ++ p))), 0)
  | none =>
    generateImageProviderCall env svc prompt none
      additional_ref_images aspect_ratio resolution

/-- An entry of `message.multi_mod_content` (the custom proxy format): a dict
that may carry a `"text"` field and/or an `"inline_data"` field (whose
`"data"` member is the base64 payload modelled here directly). -/
structure MMPart where
  text : Option String
  inline_data : Option String
deriving DecidableEq

/-- An entry of a list-shaped `message.content`: a part with a `type` tag and
optional `image_url.url` / `text` fields (the dict and attribute-object
shapes of the source are handled identically and share this model). -/
structure CPart where
  type : String
  image_url : Option String
  text : Option String
deriving DecidableEq

/-- The shape of `message.content`: a list of parts or a plain string. -/
inductive MsgContent where
  | parts (l : List CPart)
  | str (s : String)
deriving DecidableEq

/-- The provider response message (`response.choices[0].message`); `none`
models an absent attribute or a `None` value. -/
structure RespMsg where
  multi_mod_content : Option (List MMPart)
  content : Option MsgContent
deriving DecidableEq

/-- The external collaborators of `OpenAIImageProvider.generate_image`:
base64-JPEG encoding of a reference image, the chat-completions API call (a
function of exactly the request data the source sends: the aspect-ratio
system message, the encoded reference images and the text prompt — the
resolution is not part of the request), base64-decode-and-open of image bytes
(`none` models a raised decoding error), and URL fetching (`none` models a
failed download). -/
structure OpenAIEnv where
  encodeImage : PILImage → String
  api : String → String → List String → String → RespMsg
  decodeImage : String → Option PILImage
  fetchImage : String → Option PILImage

/-- The scan of `message.multi_mod_content`: the `"data"` payload of the
first part carrying an `"inline_data"` field, if any. -/
def firstInlineData : List MMPart → Option String
  | [] => none
  | part :: rest =>
    match part.inline_data with
    | some d => some d
    | none => firstInlineData rest

/-- The scan of a list-shaped `message.content`: the URL of the first
`image_url`-typed part whose URL starts with `data:image`; parts of other
types, and `image_url` parts with other URL shapes, are passed over. -/
def firstContentDataUrl : List CPart → Option String
  | [] => none
  | part :: rest =>
    if part.type = "image_url" ∧ pyStartsWith (part.image_url.getD "") "data:image" then
      some (part.image_url.getD "")
    else firstContentDataUrl rest

/-- Python `image_url.split(',', 1)[1]`: everything after the first comma;
`none` models the `IndexError` when there is no comma. -/
def splitAfterComma (s : String) : Option String :=
  match s.data.dropWhile (fun c => c ≠ ',') with
  | ',' :: rest => some (String.mk rest)
  | _ => none

/-- Matching of `https?://` (lowercase, as in the markdown-image pattern,
which is compiled without `re.IGNORECASE`). -/
def matchHttpPrefix (cs : List Char) : Option (List Char × List Char) :=
  if cs.take 8 = "https://".data then some (cs.take 8, cs.drop 8)
  else if cs.take 7 = "http://".data then some (cs.take 7, cs.drop 7)
  else none

/-- The URL part `(https?://[^\s\)]+)\)` of the markdown-image mining pattern,
matched against the characters after `](`: the scheme, then a maximal
non-empty run of characters that are neither whitespace nor `)`, followed by
the closing `)`. Returns the captured URL. -/
def mdUrlTail (cs : List Char) : Option String :=
  match matchHttpPrefix cs with
  | none => none
  | some (pre, rest) =>
    let run := rest.takeWhile (fun c => ¬ isPyRegexSpace c ∧ c ≠ ')')
    if run ≠ [] ∧ (rest.drop run.length).head? = some ')' then
      some (String.mk (pre ++ run))
    else none

/-- Lazy scan of `.*?\]\(` for the markdown-image mining pattern
`!\[.*?\]\((https?://[^\s\)]+)\)` of `OpenAIImageProvider.generate_image`:
from the characters after `![`, grow the (newline-free) alt text until a `](`
followed by a matching URL tail is found. -/
def mdScanAltGo : Nat → List Char → Option String
  | 0, _ => none
  | fuel + 1, cs =>
    match cs with
    | ']' :: '(' :: rest =>
      match mdUrlTail rest with
      | some url => some url
      | none => mdScanAltGo fuel ('(' :: rest)
    | c :: rest => if c = '\n' then none else mdScanAltGo fuel rest
    | [] => none

def mdScanAlt (cs : List Char) : Option String :=
  mdScanAltGo (cs.length + 1) cs

/-- `re.findall(r'!\[.*?\]\((https?://[^\s\)]+)\)', s)[0]`: the URL captured
by the leftmost match of the markdown-image pattern, if any. -/
def findMarkdownImageUrlGo : Nat → List Char → Option String
  | 0, _ => none
  | fuel + 1, cs =>
    match cs with
    | '!' :: '[' :: rest =>
      match mdScanAlt rest with
      | some url => some url
      | none => findMarkdownImageUrlGo fuel ('[' :: rest)
    | _ :: rest => findMarkdownImageUrlGo fuel rest
    | [] => none

def findMarkdownImageUrl (cs : List Char) : Option String :=
  findMarkdownImageUrlGo (cs.length + 1) cs

/-- The character class `[^\s\)\]]` of the plain-URL mining pattern. -/
def plainUrlClassChar (c : Char) : Bool :=
  ¬ isPyRegexSpace c && c ≠ ')' && c ≠ ']'

/-- The extension alternatives `(?:png|jpg|jpeg|gif|webp|bmp)`, tried in
pattern order. -/
def extAlts : List (List Char) :=
  [['p', 'n', 'g'], ['j', 'p', 'g'], ['j', 'p', 'e', 'g'],
   ['g', 'i', 'f'], ['w', 'e', 'b', 'p'], ['b', 'm', 'p']]

/-- Case-insensitive match of the first extension alternative that prefixes
the input, returning the matched characters in their original case. -/
def firstExt : List (List Char) → List Char → Option (List Char)
  | [], _ => none
  | alt :: rest, cs =>
    if (cs.take alt.length).map Char.toLower = alt then some (cs.take alt.length)
    else firstExt rest cs

/-- Case-insensitive matching of `https?://` for the plain-URL pattern (which
is compiled with `re.IGNORECASE`), returning the scheme in its original
case. -/
def matchHttpPrefixCI (cs : List Char) : Option (List Char × List Char) :=
  if (cs.take 8).map Char.toLower = "https://".data then some (cs.take 8, cs.drop 8)
  else if (cs.take 7).map Char.toLower = "http://".data then some (cs.take 7, cs.drop 7)
  else none

/-- Backtracking split of `[^\s\)\]]+\.(?:png|...)(?:\?[^\s\)\]]*)?` inside a
maximal run of class characters: the greedy `+` gives characters back from
the right, so the rightmost `.` followed by a matching extension (and an
optional greedy `?query`) wins. Returns the matched portion of the run. -/
def plainUrlSplit (run : List Char) : Nat → Option (List Char)
  | 0 => none
  | plusLen + 1 =>
    let cand : Option (List Char) :=
      match run.drop (plusLen + 1) with
      | '.' :: after =>
        match firstExt extAlts after with
        | some ext =>
          let afterExt := after.drop ext.length
          let query : List Char :=
            match afterExt with
            | '?' :: qs => '?' :: qs.takeWhile plainUrlClassChar
            | _ => []
          some (run.take (plusLen + 1) ++ '.' :: ext ++ query)
        | none => none
      | _ => none
    match cand with
    | some m => some m
    | none => plainUrlSplit run plusLen

/-- `re.findall(r'(https?://[^\s\)\]]+\.(?:png|jpg|jpeg|gif|webp|bmp)
(?:\?[^\s\)\]]*)?)', s, re.IGNORECASE)[0]`: the leftmost match of the
plain-image-URL pattern, if any. -/
def findPlainImageUrl : List Char → Option String
  | [] => none
  | c :: rest =>
    match matchHttpPrefixCI (c :: rest) with
    | some (pre, after) =>
      let run := after.takeWhile plainUrlClassChar
      match plainUrlSplit run run.length with
      | some m => some (String.mk (pre ++ m))
      | none => findPlainImageUrl rest
    | none => findPlainImageUrl rest

/-- A base64-alphabet character (`[A-Za-z0-9+/=]`). -/
def isB64Char (c : Char) : Bool :=
  c.isAlphanum || c = '+' || c = '/' || c = '='

/-- Match of `data:image/[^;]+;base64,([A-Za-z0-9+/=]+)` at the current
position, returning the captured base64 group. -/
def matchDataUrlB64At (cs : List Char) : Option String :=
  if cs.take 11 = "data:image/".data then
    let after := cs.drop 11
    let mid := after.takeWhile (fun c => c ≠ ';')
    if mid.isEmpty then none
    else
      let after2 := after.drop mid.length
      if after2.take 8 = ";base64,".data then
        let grp := (after2.drop 8).takeWhile isB64Char
        if grp.isEmpty then none else some (String.mk grp)
      else none
  else none

/-- `re.findall(r'data:image/[^;]+;base64,([A-Za-z0-9+/=]+)', s)[0]`: the
base64 group of the leftmost embedded data-URL, if any. -/
def findDataUrlB64 : List Char → Option String
  | [] => none
  | c :: rest =>
    match matchDataUrlB64At (c :: rest) with
    | some g => some g
    | none => findDataUrlB64 rest

/-- `raise ValueError("No valid multimodal response received from OpenAI
API")`, reached when no extraction rule applies. -/
def noValidResponse : Except PyErr PILImage :=
  Except.error (PyErr.valueError "No valid multimodal response received from OpenAI API")

/-- String-shaped `message.content` mining, in source order: markdown image
URL (fetch; a failed download is caught and falls through), then plain image
URL by extension (likewise), then embedded base64 data-URL (a failed decode
is caught and falls through); otherwise the no-valid-response error. -/
def extractFromString (env : OpenAIEnv) (s : String) : Except PyErr PILImage :=
  let viaMarkdown : Option PILImage :=
    match findMarkdownImageUrl s.data with
    | some url => env.fetchImage url
    | none => none
  match viaMarkdown with
  | some img => Except.ok img
  | none =>
    let viaPlain : Option PILImage :=
      match findPlainImageUrl s.data with
      | some url => env.fetchImage url
      | none => none
    match viaPlain with
    | some img => Except.ok img
    | none =>
      let viaB64 : Option PILImage :=
        match findDataUrlB64 s.data with
        | some b64 => env.decodeImage b64
        | none => none
      match viaB64 with
      | some img => Except.ok img
      | none => noValidResponse

/-- Extraction from `message.content` (the second and third stages of
`OpenAIImageProvider.generate_image`): a falsy content (absent, empty list or
empty string) falls through to the no-valid-response error; a list is scanned
for a `data:image` part (whose decode failure propagates, and a missing comma
raises `IndexError`); a string is mined by `extractFromString`. -/
def extractFromContent (env : OpenAIEnv) (content : Option MsgContent) :
    Except PyErr PILImage :=
  match content with
  | some (MsgContent.parts l) =>
    if l.isEmpty then noValidResponse
    else
      match firstContentDataUrl l with
      | some url =>
        match splitAfterComma url with
        | some b64 =>
          match env.decodeImage b64 with
          | some img => Except.ok img
          | none => Except.error PyErr.imageDecodeError
        | none => Except.error PyErr.indexError
      | none => noValidResponse
  | some (MsgContent.str s) => if s = "" then noValidResponse else extractFromString env s
  | none => noValidResponse

/-- Full extraction precedence of `OpenAIImageProvider.generate_image`: the
`multi_mod_content` inline-binary payload is tried first (its decode failure
propagates rather than falling through), then the `content` stages. -/
def extractImageFromMessage (env : OpenAIEnv) (message : RespMsg) :
    Except PyErr PILImage :=
  match message.multi_mod_content with
  | some parts =>
    match firstInlineData parts with
    | some d =>
      match env.decodeImage d with
      | some img => Except.ok img
      | none => Except.error PyErr.imageDecodeError
    | none => extractFromContent env message.content
  | none => extractFromContent env message.content

/-- The API request of `OpenAIImageProvider.generate_image`: the aspect-ratio
system message, the base64-encoded reference images (in order) and the text
prompt. The `resolution`, `enable_thinking` and `thinking_budget` arguments
are not part of the request. -/
def openaiRequestMsg (env : OpenAIEnv) (modelName : String)
    (ref_images : Option (List PILImage)) (aspect_ratio prompt : String) : RespMsg :=
  env.api modelName aspect_ratio
    (match ref_images with | some l => l.map env.encodeImage | none => [])
    prompt

/-- `OpenAIImageProvider.generate_image`: perform the API request and run the
extraction; any error escaping the guarded block is wrapped with the
provider's error context. -/
def openai_generate_image (env : OpenAIEnv) (modelName prompt : String)
    (ref_images : Option (List PILImage)) (aspect_ratio resolution : String)
    (enable_thinking : Bool) (thinking_budget : Nat) : Except PyErr PILImage :=
  wrapPyErr ("Error generating image with OpenAI (model=" ++ modelName ++ ")")
    (extractImageFromMessage env
      (openaiRequestMsg env modelName ref_images aspect_ratio prompt))

/-- A concrete orchestrator state with both reasoning toggles off and the
default budgets, used by the concrete evaluations below. -/
def svc₀ : AIService :=
  { text_model := "gemini-2.5-flash", image_model := "gemini-2.5-flash-image",
    enable_text_reasoning := false, text_thinking_budget := 1024,
    enable_image_reasoning := false, image_thinking_budget := 1024 }

/-- A text provider implementing neither `generate_with_image` nor
`generate_text_with_images`. -/
def tpNoImage : TextProviderWithImage :=
  { generate_with_image := none, generate_text_with_images := none }

/-- A concrete outline mixing one part (of two pages, one of which already
carries a stale `part` value) and one direct page. -/
def outline₀ : List OutlineItem :=
  [OutlineItem.partItem "Intro"
    [{ title := "p1", part := none }, { title := "p2", part := some "Old" }],
   OutlineItem.directPage { title := "p3", part := none }]

/-- A concrete generation environment in which only `/ref.png` exists on the
filesystem and only `https://img.example/ref2.png` downloads successfully. -/
def env₀ : ImageGenEnv :=
  { pathExists := fun s => decide (s = "/ref.png"),
    pathExists_empty := by decide,
    openImage := fun _ => { id := 0 },
    downloadImage := fun s =>
      if s = "https://img.example/ref2.png" then some { id := 1 } else none,
    mineruResolve := fun _ => none,
    providerGenerateImage := fun _ _ _ _ _ _ => Except.ok (some { id := 9 }) }

/-- A concrete generation environment in which no path exists while downloads
and the provider would succeed. -/
def envMissing : ImageGenEnv :=
  { pathExists := fun _ => false,
    pathExists_empty := rfl,
    openImage := fun _ => { id := 0 },
    downloadImage := fun _ => some { id := 1 },
    mineruResolve := fun _ => none,
    providerGenerateImage := fun _ _ _ _ _ _ => Except.ok (some { id := 9 }) }

/-- A concrete provider environment whose API response carries an
inline-binary payload and nothing else. -/
def env₁ : OpenAIEnv :=
  { encodeImage := fun _ => "enc",
    api := fun _ _ _ _ =>
      { multi_mod_content := some [{ text := none, inline_data := some "IMGDATA" }],
        content := none },
    decodeImage := fun s => if s = "IMGDATA" then some { id := 5 } else none,
    fetchImage := fun _ => none }

/-- A concrete provider environment whose API response carries both an
inline-binary payload and a markdown image URL in its string content; the URL
would fetch a different image than the inline payload decodes to. -/
def env₂ : OpenAIEnv :=
  { encodeImage := fun _ => "enc",
    api := fun _ _ _ _ =>
      { multi_mod_content := some
          [{ text := some "here is the image", inline_data := none },
           { text := none, inline_data := some "INLINE" }],
        content := some (MsgContent.str "![slide](http://cdn.example/slide.png)") },
    decodeImage := fun s => if s = "INLINE" then some { id := 7 } else none,
    fetchImage := fun _ => some { id := 8 } }

/-- Every run of `generate_json` makes between one and three provider calls,
each with the same prompt and the call-time thinking budget. -/
theorem generate_json_trace (svc : AIService) (gen : Nat → String → Nat → String)
    (prompt : String) :
    ∃ n, 1 ≤ n ∧ n ≤ 3 ∧
      (generate_json svc gen prompt).2
        = List.replicate n (prompt, get_text_thinking_budget svc) := by
  unfold generate_json
  cases generateJsonAttempt svc gen prompt 0 with
  | ok v => exact ⟨1, by omega, by omega, rfl⟩
  | error e =>
    cases generateJsonAttempt svc gen prompt 1 with
    | ok v => exact ⟨2, by omega, by omega, rfl⟩
    | error e2 => exact ⟨3, by omega, by omega, rfl⟩

/-- C1: `generate_json` makes at most 3 provider calls, all with the identical
prompt (and call-time budget); with a stub returning unparsable JSON on the
first two calls and parsable JSON on the third it returns the parsed value
after exactly 3 calls; with a stub that never returns parsable JSON it raises
the parse error after exactly 3 calls, never returning a value. -/
theorem generate_json_retry_bound (svc : AIService) (resp : Nat → String) (prompt : String) :
    ((generate_json svc (stubResponses resp) prompt).2.length ≤ 3
      ∧ ∀ e ∈ (generate_json svc (stubResponses resp) prompt).2,
          e = (prompt, get_text_thinking_budget svc))
  ∧ (∀ v, jsonLoads (cleanJsonResponse (resp 0)) = none →
      jsonLoads (cleanJsonResponse (resp 1)) = none →
      jsonLoads (cleanJsonResponse (resp 2)) = some v →
      generate_json svc (stubResponses resp) prompt
        = (Except.ok v, List.replicate 3 (prompt, get_text_thinking_budget svc)))
  ∧ (jsonLoads (cleanJsonResponse (resp 0)) = none →
      jsonLoads (cleanJsonResponse (resp 1)) = none →
      jsonLoads (cleanJsonResponse (resp 2)) = none →
      generate_json svc (stubResponses resp) prompt
        = (Except.error (PyErr.jsonDecodeError (cleanJsonResponse (resp 2))),
            List.replicate 3 (prompt, get_text_thinking_budget svc))) := by
  refine ⟨?_, ?_, ?_⟩
  · obtain ⟨n, _, h3, he⟩ := generate_json_trace svc (stubResponses resp) prompt
    refine ⟨?_, ?_⟩
    · rw [he, List.length_replicate]; exact h3
    · intro e hm
      rw [he] at hm
      exact List.eq_of_mem_replicate hm
  · intro v h0 h1 h2
    simp [generate_json, generateJsonAttempt, stubResponses, h0, h1, h2]
  · intro h0 h1 h2
    simp [generate_json, generateJsonAttempt, stubResponses, h0, h1, h2]

/-- Witness for C1 at concrete stubs: two unparsable responses then `[1]`
yields the parsed array after exactly 3 identical calls; always-unparsable
`xx` yields the parse error after exactly 3 identical calls. -/
theorem generate_json_retry_bound_witness :
    generate_json svc₀ (stubResponses fun i => if i = 2 then "[1]" else "xx") "p"
      = (Except.ok (Json.arr [Json.num 1]), [("p", 0), ("p", 0), ("p", 0)])
  ∧ generate_json svc₀ (stubResponses fun _ => "xx") "p"
      = (Except.error (PyErr.jsonDecodeError "xx"), [("p", 0), ("p", 0), ("p", 0)]) := by
  constructor
  · exact ((generate_json_retry_bound svc₀ (fun i => if i = 2 then "[1]" else "xx") "p").2.1
      (Json.arr [Json.num 1]) rfl rfl rfl).trans rfl
  · exact ((generate_json_retry_bound svc₀ (fun _ => "xx") "p").2.2 rfl rfl rfl).trans rfl

/-- C3: with text reasoning disabled, every provider call made by a
text-generation call passes `thinking_budget = 0` whatever the configured
budget is; flipping only the toggle on the same orchestrator state makes
every call of the next invocation pass the configured budget. At least one
call is made in each case. -/
theorem text_thinking_budget_call_time (svc : AIService)
    (gen gen2 : Nat → String → Nat → String) (prompt prompt2 : String)
    (h : svc.enable_text_reasoning = false) :
    (∀ e ∈ (generate_json svc gen prompt).2, e = (prompt, 0))
  ∧ (generate_json svc gen prompt).2 ≠ []
  ∧ (∀ e ∈ (generate_json { svc with enable_text_reasoning := true } gen2 prompt2).2,
      e = (prompt2, svc.text_thinking_budget))
  ∧ (generate_json { svc with enable_text_reasoning := true } gen2 prompt2).2 ≠ [] := by
  obtain ⟨n, hn1, _, he⟩ := generate_json_trace svc gen prompt
  obtain ⟨m, hm1, _, he2⟩ :=
    generate_json_trace { svc with enable_text_reasoning := true } gen2 prompt2
  have hb : get_text_thinking_budget svc = 0 := by
    simp [get_text_thinking_budget, h]
  have hb2 : get_text_thinking_budget { svc with enable_text_reasoning := true }
      = svc.text_thinking_budget := by
    simp [get_text_thinking_budget]
  refine ⟨?_, ?_, ?_, ?_⟩
  · intro e hm
    rw [he, hb] at hm
    exact List.eq_of_mem_replicate hm
  · rw [he]
    intro hc
    have := congrArg List.length hc
    rw [List.length_replicate] at this
    simp at this
    omega
  · intro e hm
    rw [he2, hb2] at hm
    exact List.eq_of_mem_replicate hm
  · rw [he2]
    intro hc
    have := congrArg List.length hc
    rw [List.length_replicate] at this
    simp at this
    omega

/-- Witness for C3: with the toggle off the first (and in fact every) call of
a run passes budget 0; flipping only the toggle makes the next run's calls
pass the configured 1024. -/
theorem text_thinking_budget_call_time_witness :
    (generate_json svc₀ (stubResponses fun _ => "xx") "p").2.head? = some ("p", 0)
  ∧ (generate_json { svc₀ with enable_text_reasoning := true }
      (stubResponses fun _ => "xx") "p").2.head? = some ("p", 1024) := by
  have h := text_thinking_budget_call_time svc₀ (stubResponses fun _ => "xx")
    (stubResponses fun _ => "xx") "p" "p" rfl
  constructor
  · cases he : (generate_json svc₀ (stubResponses fun _ => "xx") "p").2 with
    | nil => exact absurd he h.2.1
    | cons a t =>
      have ha : a = ("p", 0) := h.1 a (by rw [he]; exact List.mem_cons_self a t)
      rw [List.head?_cons, ha]
  · cases he : (generate_json { svc₀ with enable_text_reasoning := true }
        (stubResponses fun _ => "xx") "p").2 with
    | nil => exact absurd he h.2.2.2
    | cons a t =>
      have ha : a = ("p", svc₀.text_thinking_budget) :=
        h.2.2.1 a (by rw [he]; exact List.mem_cons_self a t)
      rw [List.head?_cons, ha]
      rfl

/-- C7 counterexample: the response `null` is, with no fence present, a valid
JSON body parsing to the JSON null value, yet `generate_json` — whose
cleaning step `strip("```json")` removes members of a character SET, here the
leading `n` — parses `ull`, fails, and raises after its three attempts
instead of returning the parsed value. (`cleanJsonResponseWithImage` is the
fence removal in the removeprefix/removesuffix sense, which leaves `null`
unchanged.) -/
theorem generate_json_fence_counterexample :
    jsonLoads "null" = some Json.null
  ∧ cleanJsonResponseWithImage "null" = "null"
  ∧ cleanJsonResponse "null" = "ull"
  ∧ generate_json svc₀ (stubResponses fun _ => "null") "p"
      = (Except.error (PyErr.jsonDecodeError "ull"), [("p", 0), ("p", 0), ("p", 0)]) :=
  ⟨rfl, rfl, rfl, rfl⟩

/-- C7 (amended): before parsing, `generate_json` strips surrounding
whitespace and leading/trailing runs of the characters backtick, `j`, `s`,
`o`, `n` (Python `str.strip(chars)` character-set semantics); for every
response whose text after THAT cleaning parses as JSON, it returns exactly
the parsed value, in a single provider call. -/
theorem generate_json_charstrip (svc : AIService) (gen : Nat → String → Nat → String)
    (prompt : String) (v : Json)
    (h : jsonLoads (cleanJsonResponse (gen 0 prompt (get_text_thinking_budget svc)))
      = some v) :
    generate_json svc gen prompt
      = (Except.ok v, [(prompt, get_text_thinking_budget svc)]) := by
  simp [generate_json, generateJsonAttempt, h]

/-- Witness for the amended C7: a fenced array response is cleaned to `[1]`
and parsed in one call. -/
theorem generate_json_charstrip_witness :
    generate_json svc₀ (stubResponses fun _ => "```json [1] ```") "p"
      = (Except.ok (Json.arr [Json.num 1]), [("p", 0)]) :=
  (generate_json_charstrip svc₀ (stubResponses fun _ => "```json [1] ```") "p"
    (Json.arr [Json.num 1]) rfl).trans rfl

/-- C5 counterexample: with a provider implementing neither
`generate_with_image` nor `generate_text_with_images`, the
unsupported-capability `ValueError` is a member of the retried exception
types, so `generate_json_with_image` performs the capability check on each of
its 3 attempts — not exactly once — before the error surfaces. -/
theorem unsupported_capability_counterexample :
    (generate_json_with_image svc₀ tpNoImage "p" "chart.png").2 = 3
  ∧ (generate_json_with_image svc₀ tpNoImage "p" "chart.png").2 ≠ 1
  ∧ (generate_json_with_image svc₀ tpNoImage "p" "chart.png").1
      = Except.error (PyErr.valueError "text_provider 不支持图片输入") :=
  ⟨rfl, by decide, rfl⟩

/-- C5 (amended): when the active text provider implements neither
`generate_with_image` nor `generate_text_with_images`,
`generate_json_with_image` surfaces the unsupported-capability `ValueError`
only after its full retry budget: the capability check is performed exactly 3
times (once per attempt), no provider call is made, and the surfaced error is
the unsupported-capability error. -/
theorem unsupported_capability_retried (svc : AIService) (prompt image_path : String) :
    generate_json_with_image svc tpNoImage prompt image_path
      = (Except.error (PyErr.valueError "text_provider 不支持图片输入"), 3) := rfl

/-- C6: for every outline, the flattening has length equal to the total page
count across parts plus the number of direct pages, equals the in-order
concatenation of each item's contribution (order preservation), and every
page originating from a part appears with that part's name in its `part`
field. -/
theorem flatten_outline_order_parts (outline : List OutlineItem) :
    (flatten_outline outline).length = (outline.map outlineItemPageCount).sum
  ∧ flatten_outline outline = outline.flatMap expandOutlineItem
  ∧ ∀ name ps, OutlineItem.partItem name ps ∈ outline → ∀ p ∈ ps,
      ({ p with part := some name } : Page) ∈ flatten_outline outline := by
  have h2 : flatten_outline outline = outline.flatMap expandOutlineItem := by
    induction outline with
    | nil => rfl
    | cons i rest ih => cases i <;> simp [flatten_outline, expandOutlineItem, ih]
  refine ⟨?_, h2, ?_⟩
  · clear h2
    induction outline with
    | nil => rfl
    | cons i rest ih =>
      cases i <;> simp [flatten_outline, outlineItemPageCount, ih] <;> omega
  · intro name ps hmem p hp
    rw [h2]
    exact List.mem_flatMap.mpr ⟨OutlineItem.partItem name ps, hmem,
      List.mem_map_of_mem _ hp⟩

/-- Witness for C6 at a concrete outline of one two-page part (one page with a
stale `part` value) and one direct page: the part's first page appears with
the part's name, the length is 2 + 1, and the whole flattening is as
expected, in order. -/
theorem flatten_outline_order_parts_witness :
    ({ title := "p1", part := some "Intro" } : Page) ∈ flatten_outline outline₀
  ∧ (flatten_outline outline₀).length = 3
  ∧ flatten_outline outline₀
      = [{ title := "p1", part := some "Intro" }, { title := "p2", part := some "Intro" },
         { title := "p3", part := none }] := by
  have h := flatten_outline_order_parts outline₀
  refine ⟨?_, ?_, rfl⟩
  · exact h.2.2 "Intro"
      [{ title := "p1", part := none }, { title := "p2", part := some "Old" }]
      (by decide) { title := "p1", part := none } (by decide)
  · rw [h.1]; rfl

/-- C9: `remove_markdown_images` replaces a markdown image link by its alt
text, deletes an empty-alt link entirely, and collapses runs of three or more
consecutive newlines to exactly two, on the spec's own test inputs. -/
theorem remove_markdown_images_examples :
    remove_markdown_images "before ![desc](url) after" = "before desc after"
  ∧ remove_markdown_images "![](url)" = ""
  ∧ remove_markdown_images "a\n\n\nb" = "a\n\nb"
  ∧ remove_markdown_images "a\n\n\n\n\nb" = "a\n\nb" :=
  ⟨rfl, rfl, rfl, rfl⟩

/-- C2: when the primary reference path exists, `generate_image` makes
exactly one provider call whose reference-image list is the opened primary
reference followed by the resolvable additional references in their declared
order (`filterMap` skips each unresolvable entry without failing the call). -/
theorem generate_image_additional_refs (env : ImageGenEnv) (svc : AIService)
    (prompt p aspect_ratio resolution : String) (addl : List RefEntry)
    (h : env.pathExists p = true) :
    generate_image env svc prompt (some p) aspect_ratio resolution addl
      = (wrapPyErr "Error generating image"
          (env.providerGenerateImage prompt
            (some (env.openImage p :: addl.filterMap (resolveAdditionalRef env)))
            aspect_ratio resolution svc.enable_image_reasoning
            (get_image_thinking_budget svc)), 1) := by
  have hne : p ≠ "" := by
    intro hempty
    rw [hempty, env.pathExists_empty] at h
    exact Bool.false_ne_true h
  simp [generate_image, generateImageProviderCall, hne, h]

/-- Witness for C2: with an unresolvable path entry followed by a
downloadable URL entry, the call succeeds with one provider call, and the
additional-reference resolution keeps only the resolvable entry. -/
theorem generate_image_additional_refs_witness :
    generate_image env₀ svc₀ "a slide" (some "/ref.png") "16:9" "2K"
      [RefEntry.str "/bad/path.png", RefEntry.str "https://img.example/ref2.png"]
      = (Except.ok (some { id := 9 }), 1)
  ∧ [RefEntry.str "/bad/path.png", RefEntry.str "https://img.example/ref2.png"].filterMap
      (resolveAdditionalRef env₀) = [{ id := 1 }] := by
  constructor
  · exact (generate_image_additional_refs env₀ svc₀ "a slide" "/ref.png" "16:9" "2K"
      [RefEntry.str "/bad/path.png", RefEntry.str "https://img.example/ref2.png"]
      (by decide)).trans rfl
  · rfl

/-- C10 counterexample: `ref_image_path = ""` is non-null and names no
existing file (`os.path.exists("") = False`), yet the call does not raise:
the Python guard `if ref_image_path:` is falsy on the empty string, so the
primary reference is skipped and the provider is invoked (here once,
successfully, with the additional reference only) instead of the claimed
wrapped `FileNotFoundError` with zero provider calls. -/
theorem missing_primary_ref_empty_counterexample :
    envMissing.pathExists "" = false
  ∧ generate_image envMissing svc₀ "a slide" (some "") "16:9" "2K"
      [RefEntry.image { id := 3 }] = (Except.ok (some { id := 9 }), 1)
  ∧ (generate_image envMissing svc₀ "a slide" (some "") "16:9" "2K"
      [RefEntry.image { id := 3 }]).2 ≠ 0 :=
  ⟨rfl, rfl, by decide⟩

/-- C10 (amended): for every ref_image_path that is non-null, NON-EMPTY and
names no existing file, `generate_image` raises the wrapped
`FileNotFoundError` without invoking the image provider, whatever the
additional reference images are; a non-null empty-string ref_image_path is
falsy for the `if ref_image_path:` guard and is instead treated as no
primary reference. -/
theorem missing_primary_ref_raises (env : ImageGenEnv) (svc : AIService)
    (prompt p aspect_ratio resolution : String) (addl : List RefEntry)
    (h0 : p ≠ "") (h : env.pathExists p = false) :
    generate_image env svc prompt (some p) aspect_ratio resolution addl
      = (Except.error (PyErr.wrapped "Error generating image"
          (PyErr.fileNotFoundError ("Reference image not found: " ++ p))), 0) := by
  simp [generate_image, h0, h]

/-- Witness for C10: a missing (non-empty) primary path raises even though
the additional references (an in-memory image and a downloadable URL) would
all resolve. -/
theorem missing_primary_ref_raises_witness :
    generate_image envMissing svc₀ "a slide" (some "/missing.png") "16:9" "2K"
      [RefEntry.image { id := 3 }, RefEntry.str "https://img.example/ok.png"]
      = (Except.error (PyErr.wrapped "Error generating image"
          (PyErr.fileNotFoundError "Reference image not found: /missing.png")), 0) :=
  (missing_primary_ref_raises envMissing svc₀ "a slide" "/missing.png" "16:9" "2K"
    [RefEntry.image { id := 3 }, RefEntry.str "https://img.example/ok.png"]
    (by decide) rfl).trans rfl

/-- C8: the chat-completion image provider's `generate_image` never errors on
account of the resolution tier — the result is identical for any two
resolution arguments (the request sends only the aspect ratio) — and whenever
an image is extractable from the response, the call with
`resolution = "4K"` succeeds with that image, indistinguishably from a normal
success. -/
theorem openai_resolution_ignored (env : OpenAIEnv) (modelName prompt aspect_ratio : String)
    (ref_images : Option (List PILImage)) (enable_thinking : Bool) (thinking_budget : Nat)
    (res1 res2 : String) :
    openai_generate_image env modelName prompt ref_images aspect_ratio res1
        enable_thinking thinking_budget
      = openai_generate_image env modelName prompt ref_images aspect_ratio res2
          enable_thinking thinking_budget
  ∧ ∀ img : PILImage,
      extractImageFromMessage env
          (openaiRequestMsg env modelName ref_images aspect_ratio prompt)
          = Except.ok img →
      openai_generate_image env modelName prompt ref_images aspect_ratio "4K"
          enable_thinking thinking_budget = Except.ok img := by
  constructor
  · rfl
  · intro img h
    simp [openai_generate_image, h, wrapPyErr]

/-- Witness for C8: against a response carrying an inline-binary payload, the
call with `resolution = "4K"` returns the decoded image and agrees with the
call at `resolution = "1K"`. -/
theorem openai_resolution_ignored_witness :
    openai_generate_image env₁ "gemini-image" "a slide" none "16:9" "4K" false 0
      = Except.ok { id := 5 }
  ∧ openai_generate_image env₁ "gemini-image" "a slide" none "16:9" "4K" false 0
      = openai_generate_image env₁ "gemini-image" "a slide" none "16:9" "1K" false 0 := by
  constructor
  · exact (openai_resolution_ignored env₁ "gemini-image" "a slide" "16:9" none false 0
      "4K" "1K").2 { id := 5 } rfl
  · exact (openai_resolution_ignored env₁ "gemini-image" "a slide" "16:9" none false 0
      "4K" "1K").1

/-- C4: for every response carrying both an inline-binary payload in
`multi_mod_content` and a markdown image URL in its string content, the
chat-completion provider's `generate_image` returns the image decoded from
the first inline-binary payload, not the one behind the markdown URL. -/
theorem inline_payload_precedence (env : OpenAIEnv)
    (modelName prompt aspect_ratio resolution : String)
    (ref_images : Option (List PILImage)) (enable_thinking : Bool) (thinking_budget : Nat)
    (parts : List MMPart) (d : String) (img : PILImage) (s u : String)
    (h1 : (openaiRequestMsg env modelName ref_images aspect_ratio prompt).multi_mod_content
      = some parts)
    (h2 : firstInlineData parts = some d)
    (h3 : env.decodeImage d = some img)
    (h4 : (openaiRequestMsg env modelName ref_images aspect_ratio prompt).content
      = some (MsgContent.str s))
    (h5 : findMarkdownImageUrl s.data = some u) :
    openai_generate_image env modelName prompt ref_images aspect_ratio resolution
        enable_thinking thinking_budget = Except.ok img := by
  simp [openai_generate_image, extractImageFromMessage, h1, h2, h3, wrapPyErr]

/-- Witness for C4: with a response carrying both an inline payload (decoding
to image 7) and a markdown URL in text (which would fetch image 8), the
result is image 7. -/
theorem inline_payload_precedence_witness :
    openai_generate_image env₂ "gemini-image" "a slide" none "16:9" "2K" false 0
      = Except.ok { id := 7 }
  ∧ env₂.fetchImage "http://cdn.example/slide.png" = some { id := 8 } := by
  constructor
  · exact inline_payload_precedence env₂ "gemini-image" "a slide" "16:9" "2K" none false 0
      [{ text := some "here is the image", inline_data := none },
       { text := none, inline_data := some "INLINE" }]
      "INLINE" { id := 7 } "![slide](http://cdn.example/slide.png)"
      "http://cdn.example/slide.png" rfl rfl rfl rfl rfl
  · rfl
